import Mathlib

/-!
Verification development for the kerko two-stage synchronization pipeline
(source files: src/kerko/sync/cache.py, src/kerko/sync/index.py, src/kerko/cli.py).

The data model and the two synchronizer functions are shallowly embedded as
executable Lean definitions.  The `whoosh` index-writer semantics (a scoped
write session whose `commit` with CLEAR merge replaces the committed content
with the documents written during the session, and whose `cancel` discards
them) as well as the key/value object storage (`load_object`/`save_object`),
the `TagGate` predicate and the Zotero client, which live outside the two sync
modules, are modelled from the specification (sections 4.1, 4.4, 4.5 and 6).
Run functions additionally return a list of observable `Event`s (remote
requests, commit/cancel, persistence calls, log lines) so that statements
about the `since` value used for streaming, about what gets persisted, and
about the ordering of commit versus watermark persistence can be made.
Exception injection is modelled by an optional position `failAt` at which the
remote/cache stream raises after yielding that many items.
-/

namespace Kerko

/-- Structured payload of a Zotero item (the `data` dict of a raw item).
`parentItem` is the empty string for top-level items, matching
`item.get('data', {}).get('parentItem', '')` in cache.py. -/
structure ItemData where
  parentItem : String := ""
  itemType : String := ""
  tags : List String := []
  payload : String := ""
  deriving Repr, DecidableEq

/-- Raw item as yielded by `zotero.Items`: a dict with `key`, `version`, the
`data` payload and top-level entries for each requested auxiliary format. -/
structure RawItem where
  key : String
  version : Nat
  data : ItemData := {}
  formats : List (String × String) := []
  deriving Repr, DecidableEq

/-- Modelled from the spec: library-wide metadata snapshot; the cache
synchronizer only consults the keys of its `item_types` mapping. -/
structure LibraryContext where
  itemTypes : List String := []
  deriving Repr, DecidableEq

/-- Record stored in the cache index (cache.py lines 64-72): `key`,
`version`, `parent_item`, `item_type`, the serialized `data` payload and one
stored field per auxiliary format.  Serialization with `json.dumps` followed
by `json.loads` in index.py is an identity round trip, so `data` is kept
structured. -/
structure CacheRecord where
  key : String
  version : Nat
  parent_item : String
  item_type : String
  data : ItemData
  formats : List (String × String)
  deriving Repr, DecidableEq

/-- Flat composed document written to the search index: field name/value
pairs accumulated by the extraction specs. -/
abbrev Document := List (String × String)

/-- Grouped record handed to extraction specs in index.py: the top-level
cache record extended with the list of its children
(`item['children'] = list(yield_children(item))`). -/
structure GroupedItem where
  record : CacheRecord
  children : List CacheRecord

/-- Modelled from the spec: the extractor carried by a field/facet spec; the
cache synchronizer reads its `format` attribute (cache.py `get_formats`). -/
structure Extractor where
  format : String

/-- Modelled from the spec: a field or facet extraction spec of the composer.
`extract_to_document` adds fields to the document being composed; it is kept
abstract as a pure function from the document built so far, the grouped item
and the library context to the extended document (spec section 4.5). -/
structure FieldSpec where
  extractor : Extractor
  extract_to_document : Document → GroupedItem → LibraryContext → Document

/-- Modelled from the spec: the composer configured in the application
(`current_app.config['KERKO_COMPOSER']`): registered field and facet specs,
the default tag include/exclude patterns (abstract predicates on a tag
string) and the identifier field that the index schema declares unique,
which `writer.update_document` uses for upserting. -/
structure Composer where
  fields : List FieldSpec := []
  facets : List FieldSpec := []
  default_item_include_re : Option (String → Bool) := none
  default_item_exclude_re : Option (String → Bool) := none
  idField : String := "id"

/-- Modelled from the spec (section 4.1): the tag gate, constructed from the
composer's include/exclude patterns. -/
structure TagGate where
  include_re : Option (String → Bool)
  exclude_re : Option (String → Bool)

/-- Modelled from the spec (section 4.1): if the exclude pattern is present
and matches any tag, reject; else if the include pattern is present, accept
only if it matches at least one tag; else accept.  The call sites in both
sync modules pass the item's `data` dict, whose tag list is consulted. -/
def TagGate.check (gate : TagGate) (data : ItemData) : Bool :=
  if (match gate.exclude_re with
      | some p => data.tags.any p
      | none => false) then
    false
  else
    match gate.include_re with
    | some p => data.tags.any p
    | none => true

/-- Gate used by both synchronizers:
`TagGate(composer.default_item_include_re, composer.default_item_exclude_re)`. -/
def composerGate (composer : Composer) : TagGate :=
  ⟨composer.default_item_include_re, composer.default_item_exclude_re⟩

/-- Modelled from the spec (section 6): the Zotero library source
collaborator.  `items since allowedItemTypes formats` is the lazy stream of
raw items changed since version `since`; `deleted_items since` the stream of
keys of items deleted or trashed since `since` (`streamDeletedItems`), which
the current cache synchronizer never requests. -/
structure ZoteroSource where
  library_context : LibraryContext
  last_modified_version : Nat
  items : Nat → List String → List String → List RawItem
  deleted_items : Nat → List String

/-- Modelled from the spec (section 4.4): the per-namespace key/value object
store.  `none` models the absence of a stored value (never synchronized). -/
structure KVStore where
  cacheVersion : Option Nat := none
  indexVersion : Option Nat := none
  cacheLibrary : Option LibraryContext := none
  deriving Repr, DecidableEq

/-- Committed state of the two stores: the key/value entries, the committed
cache index content and the committed search index content. -/
structure SyncState where
  kv : KVStore := {}
  cacheIdx : List CacheRecord := []
  indexIdx : List Document := []
  deriving Repr, DecidableEq

/-- Result of a sync run: the count returned by the Python function, or an
error escaping it (only the object-store load of the library context in
index.py can raise before the guarded region). -/
inductive RunResult where
  | ok (count : Nat)
  | error
  deriving Repr, DecidableEq

/-- Whether a run result is the error outcome. -/
def RunResult.isError : RunResult → Bool
  | .error => true
  | .ok _ => false

/-- Observable effects of a sync run, in order of occurrence. -/
inductive Event where
  | fetchItems (since : Nat)
  | fetchDeleted (since : Nat)
  | commit
  | cancel
  | logError
  | logUpToDate
  | saveCacheVersion (v : Nat)
  | saveLibrary
  | saveIndexVersion (v : Nat)
  deriving Repr, DecidableEq

/-- Whether an event is one of the object-store persistence calls. -/
def Event.isSave : Event → Bool
  | .saveCacheVersion _ => true
  | .saveLibrary => true
  | .saveIndexVersion _ => true
  | _ => false

/-- Whether an event is an item-stream request. -/
def Event.isFetchItems : Event → Bool
  | .fetchItems _ => true
  | _ => false

/-- Whether an event is a deleted-items-stream request. -/
def Event.isFetchDeleted : Event → Bool
  | .fetchDeleted _ => true
  | _ => false

/-- Whether an event is a write-session commit. -/
def Event.isCommit : Event → Bool
  | .commit => true
  | _ => false

/-- Whether an event is a write-session cancel. -/
def Event.isCancel : Event → Bool
  | .cancel => true
  | _ => false

/-- Modelled from the spec (section 4.4): `update_document` semantics of a
write session — a later document with the same unique key replaces an
earlier one. -/
def upsertByKey (key : α → String) (xs : List α) (x : α) : List α :=
  xs.filter (fun y => key y != key x) ++ [x]

/-- Modelled from the spec (section 4.4): committing a session opened with
`mergetype = whoosh.writing.CLEAR` replaces the whole committed content with
the documents written during the session, deduplicated by unique key. -/
def commitClear (key : α → String) (written : List α) : List α :=
  written.foldl (upsertByKey key) []

/-- Exception injection: `some n` makes the stream raise after yielding `n`
items; the pair is the prefix actually yielded and whether the run failed.
An injection point past the end of the stream triggers no failure. -/
def streamWithFailure (xs : List α) (failAt : Option Nat) : List α × Bool :=
  match failAt with
  | none => (xs, false)
  | some n => if n < xs.length then (xs.take n, true) else (xs, false)

/-- Formats requested from Zotero and stored in the cache schema
(cache.py `get_formats`): the extractor formats of all field and facet specs
other than `data`. -/
def get_formats (composer : Composer) : List String :=
  (((composer.fields ++ composer.facets).map fun spec => spec.extractor.format).filter
    (fun f => f != "data")).dedup

/-- Item types requested from Zotero (cache.py lines 51-54): every item type
of the library context except notes and attachments. -/
def allowedItemTypes (ctx : LibraryContext) : List String :=
  ctx.itemTypes.filter fun t => t != "note" && t != "attachment"

/-- The `since` value of every cache sync run.  cache.py line 45 hardcodes
it: `since = 0  # FIXME: Read 'since' value from last sync.` -/
def cacheSince : Nat := 0

/-- The raw-item stream a cache sync run iterates (cache.py lines 57-60):
`zotero.Items(zotero_credentials, since, allowed_item_types,
list(formats) + ['data'])`. -/
def cacheStream (composer : Composer) (src : ZoteroSource) : List RawItem :=
  src.items cacheSince (allowedItemTypes src.library_context)
    (get_formats composer ++ ["data"])

/-- Cache record built for an accepted item (cache.py lines 64-72): the
fixed fields plus `document[format_] = item.get(format_, '')` for each
registered format. -/
def buildCacheRecord (formats : List String) (item : RawItem) : CacheRecord :=
  { key := item.key
    version := item.version
    parent_item := item.data.parentItem
    item_type := item.data.itemType
    data := item.data
    formats := formats.map fun f => (f, (item.formats.lookup f).getD "") }

/-- The streaming loop of cache.py lines 57-77: the processed count is
incremented for every streamed item; the gate is then evaluated on the
item's `data`, and only accepted items are written to the session. -/
def cacheLoop (gate : TagGate) (formats : List String) :
    List RawItem → Nat → List CacheRecord → Nat × List CacheRecord
  | [], count, written => (count, written)
  | item :: rest, count, written =>
    if gate.check item.data then
      cacheLoop gate formats rest (count + 1) (written ++ [buildCacheRecord formats item])
    else
      cacheLoop gate formats rest (count + 1) written

/-- Records written to the cache write session by a run that streams the
whole item list. -/
def cacheWrittenRecords (composer : Composer) (src : ZoteroSource) : List CacheRecord :=
  (cacheLoop (composerGate composer) (get_formats composer) (cacheStream composer src) 0 []).2

/-- Embedding of `sync_cache` (cache.py lines 37-94).  The library context is
fetched but never saved and `version = zotero.last_modified_version(...)` is
read but never saved (the FIXME comments on lines 45-46 record both); on an
exception inside the guarded region the writer is cancelled, the failure is
logged and the running count is returned; on success the session commits
with CLEAR merge and the count is returned.  No `full` flag exists on the
function and no deleted-items stream is requested. -/
def sync_cache (composer : Composer) (st : SyncState) (src : ZoteroSource)
    (failAt : Option Nat) : SyncState × RunResult × List Event :=
  let version := src.last_modified_version
  let pf := streamWithFailure (cacheStream composer src) failAt
  let res := cacheLoop (composerGate composer) (get_formats composer) pf.1 0 []
  if pf.2 then
    (st, RunResult.ok res.1, [Event.fetchItems cacheSince, Event.cancel, Event.logError])
  else
    ({ st with cacheIdx := commitClear (fun r => r.key) res.2 },
     RunResult.ok res.1,
     [Event.fetchItems cacheSince, Event.commit])

/-- Top-level records enumerated by the outer loop of index.py
(`yield_top_level_items`): committed cache records whose `parent_item` is
the empty string. -/
def topLevelRecords (st : SyncState) : List CacheRecord :=
  st.cacheIdx.filter fun r => r.parent_item == ""

/-- Children of a top-level record (`yield_children`): committed cache
records whose `parent_item` equals its key. -/
def childrenOf (cacheIdx : List CacheRecord) (key : String) : List CacheRecord :=
  cacheIdx.filter fun c => c.parent_item == key

/-- Document composition (index.py lines 54-56): starting from the empty
document, every registered field and facet spec extracts into it, given the
grouped item and the library context. -/
def composeDocument (composer : Composer) (ctx : LibraryContext)
    (item : CacheRecord) (children : List CacheRecord) : Document :=
  (composer.fields ++ composer.facets).foldl
    (fun doc spec => spec.extract_to_document doc ⟨item, children⟩ ctx) []

/-- The outer loop of index.py lines 50-62: the count is incremented for
every top-level record; the gate is then evaluated on the record's `data`;
for accepted records the children are gathered, a document composed and
written to the session. -/
def indexLoop (composer : Composer) (ctx : LibraryContext) (cacheIdx : List CacheRecord)
    (gate : TagGate) :
    List CacheRecord → Nat → List Document → Nat × List Document
  | [], count, written => (count, written)
  | item :: rest, count, written =>
    if gate.check item.data then
      indexLoop composer ctx cacheIdx gate rest (count + 1)
        (written ++ [composeDocument composer ctx item (childrenOf cacheIdx item.key)])
    else
      indexLoop composer ctx cacheIdx gate rest (count + 1) written

/-- Unique identifier of a composed document, per the composer-declared
identifier field. -/
def docKey (composer : Composer) (doc : Document) : String :=
  (doc.lookup composer.idField).getD ""

/-- Documents written to the index write session by a run that enumerates
all top-level records. -/
def indexWrittenDocs (composer : Composer) (ctx : LibraryContext) (st : SyncState) :
    List Document :=
  (indexLoop composer ctx st.cacheIdx (composerGate composer) (topLevelRecords st) 0 []).2

/-- Embedding of `sync_index` (index.py lines 13-73).  The library context is
loaded from the object store with no default, so its absence raises out of
the function (modelled as the `error` result); a zero cache watermark or a
cache watermark equal to the index watermark short-circuit to count 0; on an
exception inside the guarded region the writer is cancelled, the failure is
logged and the running count returned; on success the session commits with
CLEAR merge and then `save_object('index', 'version', cache_version)`
persists the cache watermark as the new index watermark. -/
def sync_index (composer : Composer) (st : SyncState) (failAt : Option Nat) :
    SyncState × RunResult × List Event :=
  match st.kv.cacheLibrary with
  | none => (st, RunResult.error, [])
  | some library_context =>
    let cache_version := st.kv.cacheVersion.getD 0
    if cache_version = 0 then
      (st, RunResult.ok 0, [Event.logError])
    else if st.kv.indexVersion.getD 0 = cache_version then
      (st, RunResult.ok 0, [Event.logUpToDate])
    else
      let pf := streamWithFailure (topLevelRecords st) failAt
      let res := indexLoop composer library_context st.cacheIdx (composerGate composer) pf.1 0 []
      if pf.2 then
        (st, RunResult.ok res.1, [Event.cancel, Event.logError])
      else
        ({ st with
            indexIdx := commitClear (docKey composer) res.2,
            kv := { st.kv with indexVersion := some cache_version } },
         RunResult.ok res.1,
         [Event.commit, Event.saveIndexVersion cache_version])

/-- One sync invocation, as the CLI issues them: either a cache sync against
some remote source or an index sync, each possibly hit by an exception. -/
inductive SyncStep (composer : Composer) : SyncState → SyncState → Prop
  | cacheSync (st : SyncState) (src : ZoteroSource) (failAt : Option Nat) :
      SyncStep composer st (sync_cache composer st src failAt).1
  | indexSync (st : SyncState) (failAt : Option Nat) :
      SyncStep composer st (sync_index composer st failAt).1

/-- States reachable from a starting state by sync invocations. -/
inductive Reachable (composer : Composer) (s0 : SyncState) : SyncState → Prop
  | refl : Reachable composer s0 s0
  | step {s t : SyncState} : Reachable composer s0 s → SyncStep composer s t →
      Reachable composer s0 t

/-- The watermark invariant of the spec: the index watermark never exceeds
the cache watermark (absence reads as 0, matching `load_object` defaults). -/
def watermarkInv (st : SyncState) : Prop :=
  st.kv.indexVersion.getD 0 ≤ st.kv.cacheVersion.getD 0

/-- Concrete composer for evaluating runs: a single field spec whose
extractor consumes the `data` format and which writes the record key under
`id` and the comma-separated child keys under `kids`. -/
def exComposer : Composer :=
  { fields := [{ extractor := ⟨"data"⟩,
                 extract_to_document := fun doc g _ =>
                   doc ++ [("id", g.record.key),
                           ("kids", String.intercalate "," (g.children.map fun c => c.key))] }] }

/-- Concrete composer whose include pattern accepts only the tag `keep`. -/
def exGateComposer : Composer :=
  { default_item_include_re := some fun t => t == "keep" }

/-- Concrete raw items for cache runs. -/
def itemA : RawItem := { key := "A", version := 10 }

/-- Second concrete raw item. -/
def itemB : RawItem := { key := "B", version := 11 }

/-- Third concrete raw item. -/
def itemC : RawItem := { key := "C", version := 12 }

/-- Raw item carrying the tag `keep`. -/
def itemKeepA : RawItem := { key := "A", version := 1, data := { tags := ["keep"] } }

/-- Raw item carrying no tags. -/
def itemPlainB : RawItem := { key := "B", version := 2 }

/-- Another raw item carrying the tag `keep`. -/
def itemKeepC : RawItem := { key := "C", version := 3, data := { tags := ["keep"] } }

/-- Concrete remote source holding three top-level items at library
version 12. -/
def exSrc3 : ZoteroSource :=
  { library_context := { itemTypes := ["book", "note", "attachment"] }
    last_modified_version := 12
    items := fun _ _ _ => [itemA, itemB, itemC]
    deleted_items := fun _ => [] }

/-- Concrete well-behaved incremental source: one item, library version 1,
nothing changed after version 1 (streaming with a positive cursor yields
nothing). -/
def exSrcIncr : ZoteroSource :=
  { library_context := { itemTypes := ["book"] }
    last_modified_version := 1
    items := fun since _ _ => if since = 0 then [{ key := "A", version := 1 }] else []
    deleted_items := fun _ => [] }

/-- Concrete source whose items are tagged so that the `keep` include
pattern accepts the first and third but rejects the second. -/
def exSrcTagged : ZoteroSource :=
  { library_context := { itemTypes := ["book"] }
    last_modified_version := 3
    items := fun _ _ _ => [itemKeepA, itemPlainB, itemKeepC]
    deleted_items := fun _ => [] }

/-- Concrete top-level cache record. -/
def recA : CacheRecord :=
  { key := "A", version := 10, parent_item := "", item_type := "book",
    data := {}, formats := [] }

/-- Concrete child record of `recA`. -/
def recB : CacheRecord :=
  { key := "B", version := 11, parent_item := "A", item_type := "note",
    data := { parentItem := "A", itemType := "note" }, formats := [] }

/-- Second concrete child record of `recA`. -/
def recC : CacheRecord :=
  { key := "C", version := 12, parent_item := "A", item_type := "attachment",
    data := { parentItem := "A", itemType := "attachment" }, formats := [] }

/-- Concrete top-level cache record without children. -/
def recD : CacheRecord :=
  { key := "D", version := 12, parent_item := "", item_type := "book",
    data := {}, formats := [] }

/-- Concrete library context snapshot. -/
def exLibrary : LibraryContext := { itemTypes := ["book"] }

/-- State whose cache holds one top-level record with two children, with a
committed cache watermark of 12 and no index watermark. -/
def exIndexState : SyncState :=
  { kv := { cacheVersion := some 12, indexVersion := none, cacheLibrary := some exLibrary }
    cacheIdx := [recA, recB, recC] }

/-- State with a stored library context but no cache watermark. -/
def exEmptyCacheState : SyncState :=
  { kv := { cacheLibrary := some exLibrary } }

/-- State whose index watermark already equals the cache watermark. -/
def exUpToDateState : SyncState :=
  { kv := { cacheVersion := some 12, indexVersion := some 12,
            cacheLibrary := some exLibrary } }

/-- The cache streaming loop counts every streamed item and writes exactly
the gate-accepted ones, in stream order. -/
theorem cacheLoop_eq (gate : TagGate) (formats : List String) (items : List RawItem)
    (count : Nat) (written : List CacheRecord) :
    cacheLoop gate formats items count written =
      (count + items.length,
       written ++ (items.filter fun it => gate.check it.data).map (buildCacheRecord formats)) := by
  induction items generalizing count written with
  | nil => simp [cacheLoop]
  | cons item rest ih =>
    by_cases h : gate.check item.data
    · simp only [cacheLoop, h, if_true, ih, List.filter_cons, List.length_cons, List.map_cons,
        List.append_assoc, List.singleton_append, Prod.mk.injEq]
      exact ⟨by omega, by trivial⟩
    · simp only [cacheLoop, h, ih, List.filter_cons, List.length_cons,
        Bool.false_eq_true, if_false, Prod.mk.injEq]
      exact ⟨by omega, by trivial⟩

/-- The index outer loop counts every top-level record and writes exactly
one composed document per gate-accepted record, in enumeration order. -/
theorem indexLoop_eq (composer : Composer) (ctx : LibraryContext)
    (cacheIdx : List CacheRecord) (gate : TagGate) (items : List CacheRecord)
    (count : Nat) (written : List Document) :
    indexLoop composer ctx cacheIdx gate items count written =
      (count + items.length,
       written ++ (items.filter fun r => gate.check r.data).map
         (fun r => composeDocument composer ctx r (childrenOf cacheIdx r.key))) := by
  induction items generalizing count written with
  | nil => simp [indexLoop]
  | cons item rest ih =>
    by_cases h : gate.check item.data
    · simp only [indexLoop, h, if_true, ih, List.filter_cons, List.length_cons, List.map_cons,
        List.append_assoc, List.singleton_append, Prod.mk.injEq]
      exact ⟨by omega, by trivial⟩
    · simp only [indexLoop, h, ih, List.filter_cons, List.length_cons,
        Bool.false_eq_true, if_false, Prod.mk.injEq]
      exact ⟨by omega, by trivial⟩

/-- A cache sync run never touches the object store: the key/value entries
after any run, failed or successful, are those before it. -/
theorem sync_cache_kv (composer : Composer) (st : SyncState) (src : ZoteroSource)
    (failAt : Option Nat) : (sync_cache composer st src failAt).1.kv = st.kv := by
  unfold sync_cache
  dsimp only
  split <;> rfl

/-- A cache sync run never touches the committed search index. -/
theorem sync_cache_indexIdx (composer : Composer) (st : SyncState) (src : ZoteroSource)
    (failAt : Option Nat) : (sync_cache composer st src failAt).1.indexIdx = st.indexIdx := by
  unfold sync_cache
  dsimp only
  split <;> rfl

/-- Case analysis of the object-store effect of an index sync run: either
the entries are untouched, or the index watermark is set to the (nonzero)
cache watermark while everything else is untouched. -/
theorem sync_index_kv_cases (composer : Composer) (st : SyncState) (failAt : Option Nat) :
    (sync_index composer st failAt).1.kv = st.kv ∨
    ((sync_index composer st failAt).1.kv =
        { st.kv with indexVersion := some (st.kv.cacheVersion.getD 0) } ∧
      st.kv.cacheVersion.getD 0 ≠ 0) := by
  unfold sync_index
  cases h : st.kv.cacheLibrary with
  | none => exact Or.inl rfl
  | some ctx =>
    dsimp only
    by_cases h0 : st.kv.cacheVersion.getD 0 = 0
    · rw [if_pos h0]
      exact Or.inl rfl
    · rw [if_neg h0]
      by_cases h1 : st.kv.indexVersion.getD 0 = st.kv.cacheVersion.getD 0
      · rw [if_pos h1]
        exact Or.inl rfl
      · rw [if_neg h1]
        by_cases h2 : (streamWithFailure (topLevelRecords st) failAt).2 = true
        · rw [if_pos h2]
          exact Or.inl rfl
        · rw [if_neg h2]
          exact Or.inr ⟨rfl, h0⟩

/-- Any single sync invocation preserves the watermark invariant. -/
theorem syncStep_preserves_inv {composer : Composer} {s t : SyncState}
    (hstep : SyncStep composer s t) (hinv : watermarkInv s) : watermarkInv t := by
  cases hstep with
  | cacheSync src failAt =>
    unfold watermarkInv at *
    rw [sync_cache_kv]
    exact hinv
  | indexSync failAt =>
    unfold watermarkInv at *
    rcases sync_index_kv_cases composer s failAt with h | ⟨h, _⟩
    · rw [h]
      exact hinv
    · rw [h]
      simp

/-- Shape of a cache sync run without exception: the session commits, the
written records replace the committed cache content, and the count is the
full stream length. -/
theorem sync_cache_ok_run (composer : Composer) (st : SyncState) (src : ZoteroSource) :
    sync_cache composer st src none =
      ({ st with cacheIdx := commitClear (fun r => r.key) (cacheWrittenRecords composer src) },
       RunResult.ok (cacheStream composer src).length,
       [Event.fetchItems 0, Event.commit]) := by
  unfold sync_cache
  dsimp only [streamWithFailure]
  split
  next h => simp at h
  next h =>
    rw [cacheLoop_eq]
    simp [cacheWrittenRecords, cacheLoop_eq, cacheSince]

/-- Shape of a cache sync run whose stream raises after `n` of its items:
the session is cancelled, the state is untouched, the failure is logged and
the running count `n` is returned as if the run had succeeded. -/
theorem sync_cache_fail_run (composer : Composer) (st : SyncState) (src : ZoteroSource)
    (n : Nat) (hn : n < (cacheStream composer src).length) :
    sync_cache composer st src (some n) =
      (st, RunResult.ok n, [Event.fetchItems 0, Event.cancel, Event.logError]) := by
  unfold sync_cache
  dsimp only [streamWithFailure]
  rw [if_pos hn]
  dsimp only
  split
  next =>
    rw [cacheLoop_eq]
    simp [Nat.min_eq_left (Nat.le_of_lt hn), cacheSince]
  next h => simp at h

/-- An index sync run with no stored library context raises out of the
load, leaving the state untouched. -/
theorem sync_index_no_library (composer : Composer) (st : SyncState) (failAt : Option Nat)
    (h : st.kv.cacheLibrary = none) :
    sync_index composer st failAt = (st, RunResult.error, []) := by
  unfold sync_index
  rw [h]

/-- An index sync run against a zero (or absent) cache watermark refuses to
proceed: it logs an error and returns 0 without touching anything. -/
theorem sync_index_refuse_zero (composer : Composer) (st : SyncState) (failAt : Option Nat)
    (ctx : LibraryContext) (h : st.kv.cacheLibrary = some ctx)
    (h0 : st.kv.cacheVersion.getD 0 = 0) :
    sync_index composer st failAt = (st, RunResult.ok 0, [Event.logError]) := by
  unfold sync_index
  rw [h]
  dsimp only
  rw [if_pos h0]

/-- An index sync run whose index watermark already equals the cache
watermark is a no-op returning 0. -/
theorem sync_index_noop (composer : Composer) (st : SyncState) (failAt : Option Nat)
    (ctx : LibraryContext) (h : st.kv.cacheLibrary = some ctx)
    (h0 : st.kv.cacheVersion.getD 0 ≠ 0)
    (h1 : st.kv.indexVersion.getD 0 = st.kv.cacheVersion.getD 0) :
    sync_index composer st failAt = (st, RunResult.ok 0, [Event.logUpToDate]) := by
  unfold sync_index
  rw [h]
  dsimp only
  rw [if_neg h0, if_pos h1]

/-- Shape of an index sync run without exception past the precondition
checks: the session commits, the composed documents replace the committed
index content, the cache watermark is persisted as the new index watermark
after the commit, and the count is the number of top-level records. -/
theorem sync_index_ok_run (composer : Composer) (st : SyncState) (ctx : LibraryContext)
    (h : st.kv.cacheLibrary = some ctx)
    (h0 : st.kv.cacheVersion.getD 0 ≠ 0)
    (h1 : st.kv.indexVersion.getD 0 ≠ st.kv.cacheVersion.getD 0) :
    sync_index composer st none =
      ({ st with
          indexIdx := commitClear (docKey composer) (indexWrittenDocs composer ctx st),
          kv := { st.kv with indexVersion := some (st.kv.cacheVersion.getD 0) } },
       RunResult.ok (topLevelRecords st).length,
       [Event.commit, Event.saveIndexVersion (st.kv.cacheVersion.getD 0)]) := by
  unfold sync_index
  rw [h]
  dsimp only
  rw [if_neg h0, if_neg h1]
  dsimp only [streamWithFailure]
  split
  next hc => simp at hc
  next =>
    rw [indexLoop_eq]
    simp [indexWrittenDocs, indexLoop_eq]

/-- Shape of an index sync run past the precondition checks whose cache
enumeration raises after `n` top-level records: the session is cancelled,
the state is untouched, the failure is logged and the running count `n` is
returned as if the run had succeeded. -/
theorem sync_index_fail_run (composer : Composer) (st : SyncState) (ctx : LibraryContext)
    (n : Nat) (h : st.kv.cacheLibrary = some ctx)
    (h0 : st.kv.cacheVersion.getD 0 ≠ 0)
    (h1 : st.kv.indexVersion.getD 0 ≠ st.kv.cacheVersion.getD 0)
    (hn : n < (topLevelRecords st).length) :
    sync_index composer st (some n) =
      (st, RunResult.ok n, [Event.cancel, Event.logError]) := by
  unfold sync_index
  rw [h]
  dsimp only
  rw [if_neg h0, if_neg h1]
  dsimp only [streamWithFailure]
  rw [if_pos hn]
  dsimp only
  split
  next =>
    rw [indexLoop_eq]
    simp [Nat.min_eq_left (Nat.le_of_lt hn)]
  next hc => simp at hc

/-- Full case analysis of the event trace of an index sync run: empty trace
(library load raised), error log (zero cache watermark), up-to-date log,
cancel followed by error log, or commit followed by persisting the cache
watermark.  In particular the watermark is persisted only in the trace where
the commit precedes it. -/
theorem sync_index_events_cases (composer : Composer) (st : SyncState) (failAt : Option Nat) :
    (sync_index composer st failAt).2.2 = [] ∨
    (sync_index composer st failAt).2.2 = [Event.logError] ∨
    (sync_index composer st failAt).2.2 = [Event.logUpToDate] ∨
    (sync_index composer st failAt).2.2 = [Event.cancel, Event.logError] ∨
    (sync_index composer st failAt).2.2 =
      [Event.commit, Event.saveIndexVersion (st.kv.cacheVersion.getD 0)] := by
  unfold sync_index
  cases h : st.kv.cacheLibrary with
  | none => exact Or.inl rfl
  | some ctx =>
    dsimp only
    by_cases h0 : st.kv.cacheVersion.getD 0 = 0
    · rw [if_pos h0]
      exact Or.inr (Or.inl rfl)
    · rw [if_neg h0]
      by_cases h1 : st.kv.indexVersion.getD 0 = st.kv.cacheVersion.getD 0
      · rw [if_pos h1]
        exact Or.inr (Or.inr (Or.inl rfl))
      · rw [if_neg h1]
        by_cases h2 : (streamWithFailure (topLevelRecords st) failAt).2 = true
        · rw [if_pos h2]
          exact Or.inr (Or.inr (Or.inr (Or.inl rfl)))
        · rw [if_neg h2]
          exact Or.inr (Or.inr (Or.inr (Or.inr rfl)))

/-- C1.  The claim says a successful cache sync persists `targetVersion` as
the new cache watermark together with the fresh library context snapshot.
The code never does either (the FIXME comments on cache.py lines 45-46
record the omission): every run, failed or successful, leaves the whole
object store untouched and emits no persistence call, so the post-run
watermark equals the pre-run watermark instead of the captured remote
version. -/
theorem sync_cache_persists_nothing (composer : Composer) (st : SyncState)
    (src : ZoteroSource) (failAt : Option Nat) :
    (sync_cache composer st src failAt).1.kv = st.kv ∧
    (sync_cache composer st src failAt).2.2.filter Event.isSave = [] := by
  refine ⟨sync_cache_kv composer st src failAt, ?_⟩
  unfold sync_cache
  dsimp only
  split <;> rfl

/-- C2.  The claim says `since` is 0 when `full` is set or no watermark
exists and otherwise equals the last committed cache watermark.  The code
hardcodes `since = 0` (cache.py line 45 FIXME) and takes no `full` flag, so
every run — including runs against a store holding a committed watermark —
issues its single item-stream request with `since = 0`. -/
theorem sync_cache_since_always_zero (composer : Composer) (st : SyncState)
    (src : ZoteroSource) (failAt : Option Nat) :
    (sync_cache composer st src failAt).2.2.filter Event.isFetchItems =
      [Event.fetchItems 0] := by
  unfold sync_cache
  dsimp only
  split <;> rfl

/-- C3 counterexample.  A concrete cache sync run over three items whose
stream raises after two of them: the session is cancelled and the failure
logged, yet the function returns the ordinary count 2 — a success-shaped
value, not a failure result — so the claim that a single descriptive error
is propagated to the caller is false. -/
theorem sync_cache_failure_swallowed_cex :
    (sync_cache exComposer {} exSrc3 (some 2)).2.2 =
      [Event.fetchItems 0, Event.cancel, Event.logError] ∧
    (sync_cache exComposer {} exSrc3 (some 2)).2.1 = RunResult.ok 2 ∧
    RunResult.isError (sync_cache exComposer {} exSrc3 (some 2)).2.1 = false := by
  exact ⟨rfl, rfl, rfl⟩

/-- C3 as amended.  A failure inside the streaming loop of either sync run
cancels the write session (all pending writes are discarded, the state is
returned untouched) and is logged, but no error propagates to the caller:
the function returns the running count as an ordinary result. -/
theorem sync_failure_rolls_back_and_returns_count :
    (∀ (composer : Composer) (st : SyncState) (src : ZoteroSource) (n : Nat),
        n < (cacheStream composer src).length →
        sync_cache composer st src (some n) =
          (st, RunResult.ok n, [Event.fetchItems 0, Event.cancel, Event.logError])) ∧
    (∀ (composer : Composer) (st : SyncState) (ctx : LibraryContext) (n : Nat),
        st.kv.cacheLibrary = some ctx →
        st.kv.cacheVersion.getD 0 ≠ 0 →
        st.kv.indexVersion.getD 0 ≠ st.kv.cacheVersion.getD 0 →
        n < (topLevelRecords st).length →
        sync_index composer st (some n) =
          (st, RunResult.ok n, [Event.cancel, Event.logError])) :=
  ⟨fun composer st src n hn => sync_cache_fail_run composer st src n hn,
   fun composer st ctx n h h0 h1 hn => sync_index_fail_run composer st ctx n h h0 h1 hn⟩

/-- Witness for the amended C3 at concrete inputs. -/
theorem sync_failure_rolls_back_and_returns_count_witness :
    sync_cache exComposer {} exSrc3 (some 1) =
      ({}, RunResult.ok 1, [Event.fetchItems 0, Event.cancel, Event.logError]) ∧
    sync_index exComposer exIndexState (some 0) =
      (exIndexState, RunResult.ok 0, [Event.cancel, Event.logError]) :=
  ⟨sync_failure_rolls_back_and_returns_count.1 exComposer {} exSrc3 1 (by decide),
   sync_failure_rolls_back_and_returns_count.2 exComposer exIndexState exLibrary 0 rfl
     (by decide) (by decide) (by decide)⟩

/-- C4.  The claim says runs with a positive `since` stream the deleted
item keys and remove the matching cache records.  The code never requests
the deleted-items feed at all (and its `since` is hardcoded to 0, so the
claim's trigger cannot arise): a run's outcome is identical for sources
differing only in their deleted-items feed, and no deleted-items request is
ever issued. -/
theorem sync_cache_ignores_deleted_feed (composer : Composer) (st : SyncState)
    (src : ZoteroSource) (failAt : Option Nat) (d : Nat → List String) :
    sync_cache composer st { src with deleted_items := d } failAt =
      sync_cache composer st src failAt ∧
    (sync_cache composer st src failAt).2.2.filter Event.isFetchDeleted = [] := by
  constructor
  · rfl
  · unfold sync_cache
    dsimp only
    split <;> rfl

/-- C5.  The index watermark never exceeds the cache watermark in any state
reachable by sync invocations from a state satisfying that bound; a
successful index sync run commits and only then persists the cache
watermark read at run start as the new index watermark (the commit event
precedes the persistence event, and a trace without a commit contains no
persistence call). -/
theorem index_never_outruns_cache :
    (∀ (composer : Composer) (s0 s : SyncState),
        watermarkInv s0 → Reachable composer s0 s → watermarkInv s) ∧
    (∀ (composer : Composer) (st : SyncState) (ctx : LibraryContext),
        st.kv.cacheLibrary = some ctx →
        st.kv.cacheVersion.getD 0 ≠ 0 →
        st.kv.indexVersion.getD 0 ≠ st.kv.cacheVersion.getD 0 →
        (sync_index composer st none).2.2 =
          [Event.commit, Event.saveIndexVersion (st.kv.cacheVersion.getD 0)] ∧
        (sync_index composer st none).1.kv.indexVersion =
          some (st.kv.cacheVersion.getD 0)) ∧
    (∀ (composer : Composer) (st : SyncState) (failAt : Option Nat),
        (sync_index composer st failAt).2.2.filter Event.isCommit = [] →
        (sync_index composer st failAt).2.2.filter Event.isSave = []) := by
  refine ⟨?_, ?_, ?_⟩
  · intro composer s0 s h0 hr
    induction hr with
    | refl => exact h0
    | step hr hstep ih => exact syncStep_preserves_inv hstep ih
  · intro composer st ctx h h0 h1
    rw [sync_index_ok_run composer st ctx h h0 h1]
    exact ⟨rfl, rfl⟩
  · intro composer st failAt hc
    rcases sync_index_events_cases composer st failAt with h | h | h | h | h <;>
      rw [h] at hc ⊢ <;> simp_all [Event.isCommit, Event.isSave]

/-- Witness for C5 at concrete inputs: after one index sync from a state
with cache watermark 12 and no index watermark, the invariant holds, the
trace is commit followed by persisting 12, and the new index watermark is
12; a no-op run's trace contains no persistence call. -/
theorem index_never_outruns_cache_witness :
    watermarkInv (sync_index exComposer exIndexState none).1 ∧
    (sync_index exComposer exIndexState none).2.2 =
      [Event.commit, Event.saveIndexVersion 12] ∧
    (sync_index exComposer exIndexState none).1.kv.indexVersion = some 12 ∧
    (sync_index exComposer exUpToDateState none).2.2.filter Event.isSave = [] :=
  ⟨index_never_outruns_cache.1 exComposer exIndexState _
      (by unfold watermarkInv; decide)
      (Reachable.step Reachable.refl (SyncStep.indexSync exIndexState none)),
   (index_never_outruns_cache.2.1 exComposer exIndexState exLibrary rfl (by decide)
      (by decide)).1,
   (index_never_outruns_cache.2.1 exComposer exIndexState exLibrary rfl (by decide)
      (by decide)).2,
   index_never_outruns_cache.2.2 exComposer exUpToDateState none (by rfl)⟩

/-- C6.  An index sync run against an absent or zero cache watermark
refuses to proceed (state untouched, no commit, the result is an error or
the count 0); a run whose cache watermark equals the index watermark is a
no-op returning 0 and logging that the index is up to date.  The function
takes no `full` flag, so the no-op occurs under the claim's condition (and
indeed whenever the watermarks are equal). -/
theorem sync_index_precondition_checks :
    (∀ (composer : Composer) (st : SyncState) (failAt : Option Nat),
        st.kv.cacheVersion.getD 0 = 0 →
        (sync_index composer st failAt).1 = st ∧
        (sync_index composer st failAt).2.2.filter Event.isCommit = [] ∧
        ((sync_index composer st failAt).2.1 = RunResult.error ∨
          (sync_index composer st failAt).2.1 = RunResult.ok 0)) ∧
    (∀ (composer : Composer) (st : SyncState) (failAt : Option Nat) (ctx : LibraryContext),
        st.kv.cacheLibrary = some ctx →
        st.kv.cacheVersion.getD 0 ≠ 0 →
        st.kv.indexVersion.getD 0 = st.kv.cacheVersion.getD 0 →
        sync_index composer st failAt = (st, RunResult.ok 0, [Event.logUpToDate])) := by
  constructor
  · intro composer st failAt h0
    cases h : st.kv.cacheLibrary with
    | none =>
      rw [sync_index_no_library composer st failAt h]
      exact ⟨rfl, rfl, Or.inl rfl⟩
    | some ctx =>
      rw [sync_index_refuse_zero composer st failAt ctx h h0]
      exact ⟨rfl, rfl, Or.inr rfl⟩
  · intro composer st failAt ctx h h0 h1
    exact sync_index_noop composer st failAt ctx h h0 h1

/-- Witness for C6 at concrete inputs. -/
theorem sync_index_precondition_checks_witness :
    (sync_index exComposer exEmptyCacheState none).1 = exEmptyCacheState ∧
    ((sync_index exComposer exEmptyCacheState none).2.1 = RunResult.error ∨
      (sync_index exComposer exEmptyCacheState none).2.1 = RunResult.ok 0) ∧
    sync_index exComposer exUpToDateState none =
      (exUpToDateState, RunResult.ok 0, [Event.logUpToDate]) :=
  ⟨(sync_index_precondition_checks.1 exComposer exEmptyCacheState none rfl).1,
   (sync_index_precondition_checks.1 exComposer exEmptyCacheState none rfl).2.2,
   sync_index_precondition_checks.2 exComposer exUpToDateState none exLibrary rfl
     (by decide) rfl⟩

/-- C7.  A failure injected after `n` of the streamed records of either
sync run leaves the committed stores and the watermarks exactly as they
were before the run: cancelling the write session discards every pending
write. -/
theorem sync_failure_is_atomic :
    (∀ (composer : Composer) (st : SyncState) (src : ZoteroSource) (n : Nat),
        n < (cacheStream composer src).length →
        (sync_cache composer st src (some n)).1 = st) ∧
    (∀ (composer : Composer) (st : SyncState) (n : Nat),
        n < (topLevelRecords st).length →
        (sync_index composer st (some n)).1 = st) := by
  constructor
  · intro composer st src n hn
    rw [sync_cache_fail_run composer st src n hn]
  · intro composer st n hn
    cases h : st.kv.cacheLibrary with
    | none => rw [sync_index_no_library composer st (some n) h]
    | some ctx =>
      by_cases h0 : st.kv.cacheVersion.getD 0 = 0
      · rw [sync_index_refuse_zero composer st (some n) ctx h h0]
      · by_cases h1 : st.kv.indexVersion.getD 0 = st.kv.cacheVersion.getD 0
        · rw [sync_index_noop composer st (some n) ctx h h0 h1]
        · rw [sync_index_fail_run composer st ctx n h h0 h1 hn]

/-- Witness for C7 at concrete inputs: both failing runs leave the
populated state untouched. -/
theorem sync_failure_is_atomic_witness :
    (sync_cache exComposer exIndexState exSrc3 (some 2)).1 = exIndexState ∧
    (sync_index exComposer exIndexState (some 0)).1 = exIndexState :=
  ⟨sync_failure_is_atomic.1 exComposer exIndexState exSrc3 2 (by decide),
   sync_failure_is_atomic.2 exComposer exIndexState 0 (by decide)⟩

/-- C8.  In an index sync run the written documents are exactly one per
gate-accepted top-level record (records with empty `parent_item`), each
composed from that record together with all cache records whose
`parent_item` equals its key; the gate is evaluated only on the top-level
record's data, and a record without children is composed with the empty
children list. -/
theorem index_grouping_correct (composer : Composer) (st : SyncState) (ctx : LibraryContext)
    (h : st.kv.cacheLibrary = some ctx)
    (h0 : st.kv.cacheVersion.getD 0 ≠ 0)
    (h1 : st.kv.indexVersion.getD 0 ≠ st.kv.cacheVersion.getD 0) :
    indexWrittenDocs composer ctx st =
      ((topLevelRecords st).filter fun r => (composerGate composer).check r.data).map
        (fun r => composeDocument composer ctx r (childrenOf st.cacheIdx r.key)) ∧
    (sync_index composer st none).1.indexIdx =
      commitClear (docKey composer) (indexWrittenDocs composer ctx st) ∧
    (∀ r : CacheRecord, childrenOf st.cacheIdx r.key = [] →
        composeDocument composer ctx r (childrenOf st.cacheIdx r.key) =
          composeDocument composer ctx r []) := by
  refine ⟨?_, ?_, ?_⟩
  · unfold indexWrittenDocs
    rw [indexLoop_eq]
    simp
  · rw [sync_index_ok_run composer st ctx h h0 h1]
  · intro r hr
    rw [hr]

/-- Witness for C8 at concrete inputs: one top-level record with two
children yields exactly one document carrying contributions from all three
records; a record without children composes with the empty children
list. -/
theorem index_grouping_correct_witness :
    indexWrittenDocs exComposer exLibrary exIndexState =
      [[("id", "A"), ("kids", "B,C")]] ∧
    (sync_index exComposer exIndexState none).1.indexIdx =
      [[("id", "A"), ("kids", "B,C")]] ∧
    composeDocument exComposer exLibrary recD (childrenOf exIndexState.cacheIdx "D") =
      composeDocument exComposer exLibrary recD [] := by
  have h := index_grouping_correct exComposer exIndexState exLibrary rfl
    (by decide) (by decide)
  exact ⟨by rw [h.1]; rfl, by rw [h.2.1]; rfl, h.2.2 recD (by rfl)⟩

/-- C9.  The claim says a second cache sync with no remote changes
processes 0 records.  Because every run streams from `since = 0`, the
second run over an unchanged one-item source re-processes that item and
returns 1, not 0 (the watermark is trivially unchanged, since no run ever
writes one). -/
theorem sync_cache_rerun_not_zero_cex :
    (sync_cache exComposer (sync_cache exComposer {} exSrcIncr none).1 exSrcIncr none).2.1 =
      RunResult.ok 1 ∧
    (sync_cache exComposer (sync_cache exComposer {} exSrcIncr none).1 exSrcIncr none).1.kv =
      ({} : SyncState).kv := by
  exact ⟨rfl, rfl⟩

/-- C10.  The count returned by either sync run equals the number of items
it enumerated from its source — all streamed raw items for a cache run, all
top-level cache records for an index run, in each case including the
gate-rejected ones — while the documents written to the session are only
the gate-accepted ones. -/
theorem processed_count_counts_stream :
    (∀ (composer : Composer) (st : SyncState) (src : ZoteroSource) (failAt : Option Nat),
        (sync_cache composer st src failAt).2.1 =
          RunResult.ok ((streamWithFailure (cacheStream composer src) failAt).1.length)) ∧
    (∀ (composer : Composer) (src : ZoteroSource),
        (cacheWrittenRecords composer src).length =
          ((cacheStream composer src).filter fun it =>
            (composerGate composer).check it.data).length) ∧
    (∀ (composer : Composer) (st : SyncState) (ctx : LibraryContext) (failAt : Option Nat),
        st.kv.cacheLibrary = some ctx →
        st.kv.cacheVersion.getD 0 ≠ 0 →
        st.kv.indexVersion.getD 0 ≠ st.kv.cacheVersion.getD 0 →
        (sync_index composer st failAt).2.1 =
          RunResult.ok ((streamWithFailure (topLevelRecords st) failAt).1.length)) ∧
    (∀ (composer : Composer) (ctx : LibraryContext) (st : SyncState),
        (indexWrittenDocs composer ctx st).length =
          ((topLevelRecords st).filter fun r =>
            (composerGate composer).check r.data).length) := by
  refine ⟨?_, ?_, ?_, ?_⟩
  · intro composer st src failAt
    unfold sync_cache
    dsimp only
    split <;> (rw [cacheLoop_eq]; simp)
  · intro composer src
    unfold cacheWrittenRecords
    rw [cacheLoop_eq]
    simp
  · intro composer st ctx failAt h h0 h1
    unfold sync_index
    rw [h]
    dsimp only
    rw [if_neg h0, if_neg h1]
    split <;> (rw [indexLoop_eq]; simp)
  · intro composer ctx st
    unfold indexWrittenDocs
    rw [indexLoop_eq]
    simp

/-- Witness for C10 at concrete inputs: a cache run over three items, one
of which the gate rejects, counts 3 but writes 2 records; an index run
whose enumeration raises immediately counts 0; the grouped run writes one
document for its one top-level record. -/
theorem processed_count_counts_stream_witness :
    (sync_cache exGateComposer {} exSrcTagged none).2.1 = RunResult.ok 3 ∧
    (cacheWrittenRecords exGateComposer exSrcTagged).length = 2 ∧
    (sync_index exComposer exIndexState (some 0)).2.1 = RunResult.ok 0 ∧
    (indexWrittenDocs exComposer exLibrary exIndexState).length = 1 :=
  ⟨processed_count_counts_stream.1 exGateComposer {} exSrcTagged none,
   processed_count_counts_stream.2.1 exGateComposer exSrcTagged,
   processed_count_counts_stream.2.2.1 exComposer exIndexState exLibrary (some 0) rfl
     (by decide) (by decide),
   processed_count_counts_stream.2.2.2 exComposer exLibrary exIndexState⟩

end Kerko
